import Mathlib

/-!
Verification of the tool-dispatch layer of an MCP server for OpenAI
(`src/mcp_server_openai/server.py` and `src/mcp_server_openai/llm.py`).

The embedding is shallow: Python dict arguments become association lists of
JSON-like values, the remote chat-completion call and the filesystem are
abstract collaborators packaged in an `Env` record, and Python exceptions
become `Except String` (the `String` being `str(e)`).  Numeric argument
values are represented as rationals; the program performs no arithmetic on
them (they are only looked up, defaulted, and forwarded), so the
representation of `0.7` as `7/10` is faithful.
-/

namespace McpServerOpenai

/-- A JSON-like argument value, as found in a tool invocation's
`arguments` dict. -/
inductive Value where
  | str (s : String)
  | num (q : ℚ)
  | int (n : Int)
  | bool (b : Bool)
  | null
deriving DecidableEq, Repr

/-- `types.TextContent(type="text", text=...)`: one content item of a
`call_tool` result. -/
structure TextContent where
  type : String
  text : String
deriving DecidableEq, Repr

/-- One part of a multi-part user message in the vision path: either a
`{"type": "text", ...}` part or a `{"type": "image_url", ...}` part. -/
inductive ContentPart where
  | text (t : Value)
  | imageUrl (url : String)
deriving DecidableEq, Repr

/-- The `content` field of a chat message: a plain value (system prompt or
text query) or a list of parts (vision user message). -/
inductive MsgContent where
  | plain (v : Value)
  | multi (ps : List ContentPart)
deriving DecidableEq, Repr

/-- A chat message `{"role": ..., "content": ...}`. -/
structure ChatMessage where
  role : String
  content : MsgContent
deriving DecidableEq, Repr

/-- The payload of one `client.chat.completions.create(...)` call. -/
structure ChatRequest where
  messages : List ChatMessage
  model : Value
  temperature : Value
  max_tokens : Value
deriving DecidableEq, Repr

/-- The external collaborators of the dispatch layer: the remote
chat-completion endpoint (returning `response.choices[0].message.content`
or failing with a diagnostic) and the filesystem (`open(path, "rb").read()`
returning bytes or failing with a diagnostic, e.g. file-not-found). -/
structure Env where
  chatComplete : ChatRequest → Except String String
  fs : String → Except String (List Nat)

/-- Python dict lookup on the arguments mapping (`arguments[k]` /
`arguments.get(k)`), modelled on an association list. -/
def lookupArg (args : List (String × Value)) (k : String) : Option Value :=
  match args with
  | [] => none
  | (k₁, v) :: rest => if k₁ = k then v else lookupArg rest k

/-- `arguments.get(k, default)`. -/
def getArg (args : List (String × Value)) (k : String) (d : Value) : Value :=
  (lookupArg args k).getD d

/-- The single-quote character, used in Python `KeyError` rendering. -/
def sq : String := String.mk [Char.ofNat 39]

/-- `str(KeyError(k))` is the key wrapped in single quotes. -/
def keyErr (k : String) : String := sq ++ k ++ sq

/-- The base64 alphabet. -/
def b64Alphabet : List Char :=
  ['A', 'B', 'C', 'D', 'E', 'F', 'G', 'H', 'I', 'J', 'K', 'L', 'M',
   'N', 'O', 'P', 'Q', 'R', 'S', 'T', 'U', 'V', 'W', 'X', 'Y', 'Z',
   'a', 'b', 'c', 'd', 'e', 'f', 'g', 'h', 'i', 'j', 'k', 'l', 'm',
   'n', 'o', 'p', 'q', 'r', 's', 't', 'u', 'v', 'w', 'x', 'y', 'z',
   '0', '1', '2', '3', '4', '5', '6', '7', '8', '9', '+', '/']

/-- The base64 digit for a 6-bit group. -/
def b64c (n : Nat) : Char := b64Alphabet.getD n 'A'

/-- `base64.b64encode(data).decode("utf-8")`: standard base64 with `=`
padding, on a byte list. -/
def base64Encode : List Nat → String
  | [] => ""
  | [a] =>
      String.mk [b64c (a / 4), b64c (a % 4 * 16)] ++ "=="
  | [a, b] =>
      String.mk [b64c (a / 4), b64c (a % 4 * 16 + b / 16), b64c (b % 16 * 4)] ++ "="
  | a :: b :: c :: rest =>
      String.mk [b64c (a / 4), b64c (a % 4 * 16 + b / 16),
                 b64c (b % 16 * 4 + c / 64), b64c (c % 64)]
        ++ base64Encode rest

/-- The request built by `LLMConnector.ask_openai`: fixed system prompt,
the query as the user message, and the model/temperature/max_tokens
forwarded verbatim. -/
def askOpenaiRequest (query model temperature max_tokens : Value) : ChatRequest :=
  { messages :=
      [⟨"system", .plain (.str "You are a helpful assistant.")⟩,
       ⟨"user", .plain query⟩],
    model := model, temperature := temperature, max_tokens := max_tokens }

/-- `LLMConnector.ask_openai`: the `try`/`except` there only logs and
re-raises, so behaviourally it is the chat-completion call itself. -/
def ask_openai (env : Env) (query model temperature max_tokens : Value) :
    Except String String :=
  env.chatComplete (askOpenaiRequest query model temperature max_tokens)

/-- `open(image_path, "rb")`: a string path goes to the filesystem; any
other value makes `open` raise a `TypeError`. -/
def openFileRead (env : Env) (image_path : Value) : Except String (List Nat) :=
  match image_path with
  | .str p => env.fs p
  | _ => Except.error "expected str, bytes or os.PathLike object"

/-- The request built by `LLMConnector.ask_openai_vision` once the image
bytes are read and base64-encoded: fixed system prompt, and a multi-part
user message holding the text query and the inline image payload, whose
data URL is always labelled `image/jpeg`. -/
def askOpenaiVisionRequest (query : Value) (base64_image : String)
    (model temperature max_tokens : Value) : ChatRequest :=
  { messages :=
      [⟨"system", .plain (.str "You are a helpful assistant that can analyze images.")⟩,
       ⟨"user", .multi
          [.text query,
           .imageUrl ("data:image/jpeg;base64," ++ base64_image)]⟩],
    model := model, temperature := temperature, max_tokens := max_tokens }

/-- `LLMConnector.ask_openai_vision`: read and encode the image, then make
the chat-completion call; the `try`/`except` only logs and re-raises. -/
def ask_openai_vision (env : Env) (query image_path model temperature max_tokens : Value) :
    Except String String :=
  match openFileRead env image_path with
  | .error e => .error e
  | .ok image_data =>
      env.chatComplete
        (askOpenaiVisionRequest query (base64Encode image_data)
          model temperature max_tokens)

/-- The body of the `try` block of `handle_tool_call` in `server.py`:
each `raise` becomes `Except.error` with `str(e)`.  `if not arguments`
is true for `None` and for the empty dict. -/
def dispatchBody (env : Env) (name : String)
    (arguments : Option (List (String × Value))) :
    Except String (List TextContent) :=
  match arguments with
  | none => .error "No arguments provided"
  | some args =>
    if args.isEmpty then .error "No arguments provided"
    else if name = "ask-openai" then
      match lookupArg args "query" with
      | none => .error (keyErr "query")
      | some query =>
        match ask_openai env query
            (getArg args "model" (.str "gpt-4"))
            (getArg args "temperature" (.num (7/10)))
            (getArg args "max_tokens" (.int 500)) with
        | .error e => .error e
        | .ok response =>
            .ok [⟨"text", "OpenAI Response:\n" ++ response⟩]
    else if name = "ask-openai-vision" then
      match lookupArg args "query" with
      | none => .error (keyErr "query")
      | some query =>
        match lookupArg args "image_path" with
        | none => .error (keyErr "image_path")
        | some image_path =>
          match ask_openai_vision env query image_path
              (getArg args "model" (.str "gpt-4o"))
              (getArg args "temperature" (.num (7/10)))
              (getArg args "max_tokens" (.int 500)) with
          | .error e => .error e
          | .ok response =>
              .ok [⟨"text", "OpenAI Vision Response:\n" ++ response⟩]
    else .error ("Unknown tool: " ++ name)

/-- `handle_tool_call`: the `try`/`except Exception` wrapper around the
body, converting every failure into the `"Error: "` text content. -/
def handle_tool_call (env : Env) (name : String)
    (arguments : Option (List (String × Value))) : List TextContent :=
  match dispatchBody env name arguments with
  | .ok res => res
  | .error e => [⟨"text", "Error: " ++ e⟩]

/-- Substring containment on strings, used to state that error messages
mention the offending name or key. -/
def strContains (hay needle : String) : Prop :=
  needle.toList <:+: hay.toList

instance (hay needle : String) : Decidable (strContains hay needle) :=
  inferInstanceAs (Decidable (_ <:+: _))

/-- A stub environment: the backend answers `"4"` to every request and
every file read fails with a file-not-found diagnostic. -/
def stubEnv : Env :=
  { chatComplete := fun _ => .ok "4",
    fs := fun p => .error ("[Errno 2] No such file or directory: " ++ sq ++ p ++ sq) }

/-- A stub environment whose backend always fails with a fixed diagnostic
and whose filesystem rejects every read. -/
def failEnv : Env :=
  { chatComplete := fun _ => .error "Invalid temperature",
    fs := fun p => .error ("[Errno 13] Permission denied: " ++ sq ++ p ++ sq) }

/-- A stub environment whose filesystem serves one PNG file (the four
magic bytes of the PNG format) and whose backend echoes `"a png"`. -/
def pngEnv : Env :=
  { chatComplete := fun _ => .ok "a png",
    fs := fun p =>
      if p = "/img.png" then .ok [137, 80, 78, 71]
      else .error ("[Errno 2] No such file or directory: " ++ sq ++ p ++ sq) }

/-! ### Helper lemmas (shared) -/

theorem handle_ok {env : Env} {name : String} {args : Option (List (String × Value))}
    {r : List TextContent} (h : dispatchBody env name args = .ok r) :
    handle_tool_call env name args = r := by
  simp [handle_tool_call, h]

theorem handle_err {env : Env} {name : String} {args : Option (List (String × Value))}
    {e : String} (h : dispatchBody env name args = .error e) :
    handle_tool_call env name args = [⟨"text", "Error: " ++ e⟩] := by
  simp [handle_tool_call, h]

theorem isEmpty_false_of_ne_nil {args : List (String × Value)} (h : args ≠ []) :
    args.isEmpty = false := by
  cases args with
  | nil => exact absurd rfl h
  | cons a rest => rfl

theorem ne_nil_of_lookup {args : List (String × Value)} {k : String} {v : Value}
    (h : lookupArg args k = some v) : args.isEmpty = false := by
  cases args with
  | nil => simp [lookupArg] at h
  | cons a rest => rfl

theorem strContains_append_right (pre s : String) : strContains (pre ++ s) s := by
  refine ⟨pre.toList, [], ?_⟩
  simp [String.toList, String.data_append]

/-! ### Claims -/

/-- C1: for every tool name and every arguments mapping (including absent
and empty), `handle_tool_call` totally returns a response, and every
failure raised inside the dispatch body is converted into a single text
content whose text is `"Error: "` followed by the failure's message. -/
theorem c1_dispatch_never_raises (env : Env) (name : String)
    (arguments : Option (List (String × Value))) :
    (∃ r, dispatchBody env name arguments = .ok r ∧
       handle_tool_call env name arguments = r) ∨
    (∃ e, dispatchBody env name arguments = .error e ∧
       handle_tool_call env name arguments = [⟨"text", "Error: " ++ e⟩]) := by
  cases h : dispatchBody env name arguments with
  | ok r => exact .inl ⟨r, rfl, handle_ok h⟩
  | error e => exact .inr ⟨e, rfl, handle_err h⟩

/-- C2 counterexample: dispatching tool name `"bogus"` with an EMPTY
arguments mapping yields `"Error: No arguments provided"`, not
`"Error: Unknown tool: bogus"` — the emptiness check runs before the
catalog lookup, so the error message does not contain the offending
name. -/
theorem c2_unknown_tool_empty_args_counterexample :
    handle_tool_call stubEnv "bogus" (some []) =
      [⟨"text", "Error: No arguments provided"⟩] ∧
    handle_tool_call stubEnv "bogus" (some []) ≠
      [⟨"text", "Error: Unknown tool: bogus"⟩] ∧
    ¬ strContains "No arguments provided" "bogus" :=
  ⟨rfl, by decide, by decide⟩

/-- C2 (amended): for every tool name outside the catalog invoked with a
NON-EMPTY arguments mapping, dispatch returns the error envelope
`"Error: Unknown tool: <name>"`, whose message contains the offending
name; with an empty or absent mapping, dispatch instead returns
`"Error: No arguments provided"`. -/
theorem c2_unknown_tool_error (env : Env) (name : String)
    (args : List (String × Value))
    (h₁ : name ≠ "ask-openai") (h₂ : name ≠ "ask-openai-vision")
    (h₃ : args ≠ []) :
    (handle_tool_call env name (some args) =
       [⟨"text", "Error: " ++ ("Unknown tool: " ++ name)⟩] ∧
     strContains ("Error: " ++ ("Unknown tool: " ++ name)) name) ∧
    handle_tool_call env name none =
      [⟨"text", "Error: No arguments provided"⟩] ∧
    handle_tool_call env name (some []) =
      [⟨"text", "Error: No arguments provided"⟩] := by
  refine ⟨⟨handle_err ?_, ?_⟩, handle_err rfl, handle_err rfl⟩
  · simp [dispatchBody, isEmpty_false_of_ne_nil h₃, h₁, h₂]
  · refine ⟨("Error: " ++ "Unknown tool: ").toList, [], ?_⟩
    simp [String.toList, String.data_append]

/-- C2 witness: the amended claim at `name = "bogus"` with the non-empty
mapping `{"query": "x"}`. -/
theorem c2_unknown_tool_error_witness :
    (handle_tool_call stubEnv "bogus" (some [("query", Value.str "x")]) =
       [⟨"text", "Error: " ++ ("Unknown tool: " ++ "bogus")⟩] ∧
     strContains ("Error: " ++ ("Unknown tool: " ++ "bogus")) "bogus") ∧
    handle_tool_call stubEnv "bogus" none =
      [⟨"text", "Error: No arguments provided"⟩] ∧
    handle_tool_call stubEnv "bogus" (some []) =
      [⟨"text", "Error: No arguments provided"⟩] :=
  c2_unknown_tool_error stubEnv "bogus" [("query", Value.str "x")]
    (by decide) (by decide) (by decide)

/-- C9: every invocation produces a list of exactly one text content item
(`type = "text"`) carrying the envelope text, on the ok path and on the
error path alike; on the error path that text is `"Error: "` followed by
the failure message. -/
theorem c9_single_text_item (env : Env) (name : String)
    (arguments : Option (List (String × Value))) :
    ∃ t : String, handle_tool_call env name arguments = [⟨"text", t⟩] := by
  rcases h : dispatchBody env name arguments with e | r
  · exact ⟨"Error: " ++ e, handle_err h⟩
  · rw [handle_ok h]
    revert h
    unfold dispatchBody
    cases arguments with
    | none => intro h; cases h
    | some args =>
      simp only
      split
      · intro h; cases h
      · split
        · split
          · intro h; cases h
          · split
            · intro h; cases h
            · intro h
              injection h with h
              exact ⟨_, h.symm⟩
        · split
          · split
            · intro h; cases h
            · split
              · intro h; cases h
              · split
                · intro h; cases h
                · intro h
                  injection h with h
                  exact ⟨_, h.symm⟩
          · intro h; cases h

/-- C3: invoking `ask-openai` with only the required `query` present (no
`model`, `temperature` or `max_tokens` key) makes the dispatch body call
the backend text operation with the declared defaults: model `"gpt-4"`,
temperature `0.7`, max_tokens `500`. -/
theorem c3_text_tool_defaults (env : Env) (args : List (String × Value)) (q : Value)
    (hq : lookupArg args "query" = some q)
    (hm : lookupArg args "model" = none)
    (ht : lookupArg args "temperature" = none)
    (hk : lookupArg args "max_tokens" = none) :
    dispatchBody env "ask-openai" (some args) =
      (env.chatComplete
          (askOpenaiRequest q (.str "gpt-4") (.num (7/10)) (.int 500))).map
        (fun r => [⟨"text", "OpenAI Response:\n" ++ r⟩]) := by
  simp only [dispatchBody, ne_nil_of_lookup hq, Bool.false_eq_true, if_false,
    if_pos rfl, if_true, hq, getArg, hm, ht, hk, Option.getD, ask_openai]
  cases h : env.chatComplete (askOpenaiRequest q (.str "gpt-4") (.num (7/10)) (.int 500)) with
  | ok r => simp [h, Except.map]
  | error e => simp [h, Except.map]

/-- C3 witness: the arguments mapping `{"query": "hi"}` against the stub
environment. -/
theorem c3_text_tool_defaults_witness :
    lookupArg [("query", Value.str "hi")] "query" = some (Value.str "hi") ∧
    dispatchBody stubEnv "ask-openai" (some [("query", Value.str "hi")]) =
      (stubEnv.chatComplete
          (askOpenaiRequest (.str "hi") (.str "gpt-4") (.num (7/10)) (.int 500))).map
        (fun r => [⟨"text", "OpenAI Response:\n" ++ r⟩]) :=
  ⟨rfl, c3_text_tool_defaults stubEnv [("query", Value.str "hi")] (.str "hi")
    rfl rfl rfl rfl⟩

/-- C4: when the backend operation succeeds, dispatch wraps the answer in
an ok envelope whose text is the tool-specific label, a colon and a
newline, then the backend text: `"OpenAI Response:\n"` for the text tool
and `"OpenAI Vision Response:\n"` for the vision tool. -/
theorem c4_ok_wrap_label :
    (∀ (env : Env) (args : List (String × Value)) (q : Value) (r : String),
       lookupArg args "query" = some q →
       env.chatComplete
           (askOpenaiRequest q (getArg args "model" (.str "gpt-4"))
             (getArg args "temperature" (.num (7/10)))
             (getArg args "max_tokens" (.int 500))) = .ok r →
       handle_tool_call env "ask-openai" (some args) =
         [⟨"text", "OpenAI Response:\n" ++ r⟩]) ∧
    (∀ (env : Env) (args : List (String × Value)) (q p : Value) (r : String),
       lookupArg args "query" = some q →
       lookupArg args "image_path" = some p →
       ask_openai_vision env q p (getArg args "model" (.str "gpt-4o"))
           (getArg args "temperature" (.num (7/10)))
           (getArg args "max_tokens" (.int 500)) = .ok r →
       handle_tool_call env "ask-openai-vision" (some args) =
         [⟨"text", "OpenAI Vision Response:\n" ++ r⟩]) := by
  constructor
  · intro env args q r hq hok
    refine handle_ok ?_
    simp only [dispatchBody, ne_nil_of_lookup hq, Bool.false_eq_true, if_false,
      if_pos rfl, if_true, hq, ask_openai, hok]
  · intro env args q p r hq hp hok
    refine handle_ok ?_
    have hname : ¬ ("ask-openai-vision" = "ask-openai") := by decide
    simp only [dispatchBody, ne_nil_of_lookup hq, Bool.false_eq_true, if_false,
      if_neg hname, if_pos rfl, if_true, hq, hp, hok]

/-- C4 witness: the spec scenario — `ask-openai` with `{"query": "2+2?"}`
against a stub backend answering `"4"` yields
`"OpenAI Response:\n" ++ "4"`. -/
theorem c4_ok_wrap_label_witness :
    stubEnv.chatComplete
        (askOpenaiRequest (.str "2+2?")
          (getArg [("query", Value.str "2+2?")] "model" (.str "gpt-4"))
          (getArg [("query", Value.str "2+2?")] "temperature" (.num (7/10)))
          (getArg [("query", Value.str "2+2?")] "max_tokens" (.int 500))) = .ok "4" ∧
    handle_tool_call stubEnv "ask-openai" (some [("query", Value.str "2+2?")]) =
      [⟨"text", "OpenAI Response:\n" ++ "4"⟩] :=
  ⟨rfl, c4_ok_wrap_label.1 stubEnv [("query", Value.str "2+2?")]
    (.str "2+2?") "4" rfl rfl⟩

/-- C5: with a non-empty mapping, a missing required argument surfaces as
an error envelope whose message is the Python `KeyError` rendering of the
missing key (the key in single quotes), which contains the key: `query`
for either tool, `image_path` for the vision tool. -/
theorem c5_missing_required_key (env : Env) (args : List (String × Value))
    (h : args ≠ []) :
    (lookupArg args "query" = none →
       handle_tool_call env "ask-openai" (some args) =
         [⟨"text", "Error: " ++ keyErr "query"⟩] ∧
       handle_tool_call env "ask-openai-vision" (some args) =
         [⟨"text", "Error: " ++ keyErr "query"⟩]) ∧
    (∀ q, lookupArg args "query" = some q → lookupArg args "image_path" = none →
       handle_tool_call env "ask-openai-vision" (some args) =
         [⟨"text", "Error: " ++ keyErr "image_path"⟩]) ∧
    strContains (keyErr "query") "query" ∧
    strContains (keyErr "image_path") "image_path" := by
  have hname : ¬ ("ask-openai-vision" = "ask-openai") := by decide
  refine ⟨fun hq => ⟨handle_err ?_, handle_err ?_⟩,
    fun q hq hp => handle_err ?_, by decide, by decide⟩
  · simp only [dispatchBody, isEmpty_false_of_ne_nil h, Bool.false_eq_true,
      if_false, if_pos rfl, if_true, hq]
  · simp only [dispatchBody, isEmpty_false_of_ne_nil h, Bool.false_eq_true,
      if_false, if_neg hname, if_pos rfl, if_true, hq]
  · simp only [dispatchBody, isEmpty_false_of_ne_nil h, Bool.false_eq_true,
      if_false, if_neg hname, if_pos rfl, if_true, hq, hp]

/-- C5 witness: the mapping `{"model": "gpt-4"}` (missing `query`) for
both tools, and `{"query": "q"}` (missing `image_path`) for the vision
tool. -/
theorem c5_missing_required_key_witness :
    (handle_tool_call stubEnv "ask-openai" (some [("model", Value.str "gpt-4")]) =
       [⟨"text", "Error: " ++ keyErr "query"⟩] ∧
     handle_tool_call stubEnv "ask-openai-vision" (some [("model", Value.str "gpt-4")]) =
       [⟨"text", "Error: " ++ keyErr "query"⟩]) ∧
    handle_tool_call stubEnv "ask-openai-vision" (some [("query", Value.str "q")]) =
      [⟨"text", "Error: " ++ keyErr "image_path"⟩] :=
  ⟨(c5_missing_required_key stubEnv [("model", Value.str "gpt-4")]
      (by decide)).1 rfl,
   (c5_missing_required_key stubEnv [("query", Value.str "q")]
      (by decide)).2.1 (Value.str "q") rfl rfl⟩

/-- C6: every argument value present in the invocation is forwarded to the
backend operation unchanged — no coercion, clamping or early rejection
against the catalog's declared enum/min/max constraints — and a backend
failure on such forwarded values is caught as an error envelope. -/
theorem c6_arguments_forwarded_verbatim :
    (∀ (env : Env) (args : List (String × Value)) (q m t k : Value),
       lookupArg args "query" = some q →
       lookupArg args "model" = some m →
       lookupArg args "temperature" = some t →
       lookupArg args "max_tokens" = some k →
       dispatchBody env "ask-openai" (some args) =
         (env.chatComplete (askOpenaiRequest q m t k)).map
           (fun r => [⟨"text", "OpenAI Response:\n" ++ r⟩])) ∧
    (∀ (env : Env) (args : List (String × Value)) (q p m t k : Value),
       lookupArg args "query" = some q →
       lookupArg args "image_path" = some p →
       lookupArg args "model" = some m →
       lookupArg args "temperature" = some t →
       lookupArg args "max_tokens" = some k →
       dispatchBody env "ask-openai-vision" (some args) =
         (ask_openai_vision env q p m t k).map
           (fun r => [⟨"text", "OpenAI Vision Response:\n" ++ r⟩])) ∧
    (∀ (env : Env) (args : List (String × Value)) (q m t k : Value) (e : String),
       lookupArg args "query" = some q →
       lookupArg args "model" = some m →
       lookupArg args "temperature" = some t →
       lookupArg args "max_tokens" = some k →
       env.chatComplete (askOpenaiRequest q m t k) = .error e →
       handle_tool_call env "ask-openai" (some args) =
         [⟨"text", "Error: " ++ e⟩]) := by
  have text_part : ∀ (env : Env) (args : List (String × Value)) (q m t k : Value),
      lookupArg args "query" = some q →
      lookupArg args "model" = some m →
      lookupArg args "temperature" = some t →
      lookupArg args "max_tokens" = some k →
      dispatchBody env "ask-openai" (some args) =
        (env.chatComplete (askOpenaiRequest q m t k)).map
          (fun r => [⟨"text", "OpenAI Response:\n" ++ r⟩]) := by
    intro env args q m t k hq hm ht hk
    simp only [dispatchBody, ne_nil_of_lookup hq, Bool.false_eq_true, if_false,
      if_pos rfl, if_true, hq, getArg, hm, ht, hk, Option.getD, ask_openai]
    cases h : env.chatComplete (askOpenaiRequest q m t k) with
    | ok r => simp [Except.map]
    | error e => simp [Except.map]
  refine ⟨text_part, ?_, ?_⟩
  · intro env args q p m t k hq hp hm ht hk
    have hname : ¬ ("ask-openai-vision" = "ask-openai") := by decide
    simp only [dispatchBody, ne_nil_of_lookup hq, Bool.false_eq_true, if_false,
      if_neg hname, if_pos rfl, if_true, hq, hp, getArg, hm, ht, hk, Option.getD]
    cases h : ask_openai_vision env q p m t k with
    | ok r => simp [Except.map]
    | error e => simp [Except.map]
  · intro env args q m t k e hq hm ht hk he
    refine handle_err ?_
    rw [text_part env args q m t k hq hm ht hk, he]
    rfl

/-- C6 witness: `ask-openai` with the out-of-range temperature `99`, the
undeclared model `"gpt-5"` and `max_tokens` `5000` — all forwarded to the
backend untouched — against a backend that then fails, yielding the error
envelope. -/
theorem c6_arguments_forwarded_verbatim_witness :
    dispatchBody failEnv "ask-openai"
        (some [("query", Value.str "q"), ("model", Value.str "gpt-5"),
               ("temperature", Value.num 99), ("max_tokens", Value.int 5000)]) =
      (failEnv.chatComplete
          (askOpenaiRequest (.str "q") (.str "gpt-5") (.num 99) (.int 5000))).map
        (fun r => [⟨"text", "OpenAI Response:\n" ++ r⟩]) ∧
    handle_tool_call failEnv "ask-openai"
        (some [("query", Value.str "q"), ("model", Value.str "gpt-5"),
               ("temperature", Value.num 99), ("max_tokens", Value.int 5000)]) =
      [⟨"text", "Error: " ++ "Invalid temperature"⟩] :=
  ⟨c6_arguments_forwarded_verbatim.1 failEnv _ (.str "q") (.str "gpt-5")
      (.num 99) (.int 5000) rfl rfl rfl rfl,
   c6_arguments_forwarded_verbatim.2.2 failEnv _ (.str "q") (.str "gpt-5")
      (.num 99) (.int 5000) "Invalid temperature" rfl rfl rfl rfl rfl⟩

/-- C7: the vision backend operation reads the bytes of the file at the
image path, base64-encodes them, and sends them inline in the multi-part
user message together with the text query, labelled with the
`data:image/jpeg` content type regardless of the bytes' actual format. -/
theorem c7_vision_reads_encodes_jpeg (env : Env) (q : Value) (p : String)
    (m t k : Value) (bytes : List Nat) (h : env.fs p = .ok bytes) :
    ask_openai_vision env q (.str p) m t k =
      env.chatComplete (askOpenaiVisionRequest q (base64Encode bytes) m t k) ∧
    (askOpenaiVisionRequest q (base64Encode bytes) m t k).messages =
      [⟨"system", .plain (.str "You are a helpful assistant that can analyze images.")⟩,
       ⟨"user", .multi
          [.text q,
           .imageUrl ("data:image/jpeg;base64," ++ base64Encode bytes)]⟩] := by
  constructor
  · simp only [ask_openai_vision, openFileRead, h]
  · rfl

/-- C7 witness: a PNG file (magic bytes `137, 80, 78, 71`, base64
`"iVBORw=="`) is still labelled `image/jpeg` in the request. -/
theorem c7_vision_reads_encodes_jpeg_witness :
    pngEnv.fs "/img.png" = .ok [137, 80, 78, 71] ∧
    ask_openai_vision pngEnv (.str "what") (.str "/img.png")
        (.str "gpt-4o") (.num (7/10)) (.int 500) =
      pngEnv.chatComplete
        (askOpenaiVisionRequest (.str "what") (base64Encode [137, 80, 78, 71])
          (.str "gpt-4o") (.num (7/10)) (.int 500)) ∧
    base64Encode [137, 80, 78, 71] = "iVBORw==" :=
  ⟨rfl,
   (c7_vision_reads_encodes_jpeg pngEnv (.str "what") "/img.png"
      (.str "gpt-4o") (.num (7/10)) (.int 500) [137, 80, 78, 71] rfl).1,
   by decide⟩

/-- C8: dispatching the vision tool with an image path whose read fails
returns the error envelope `"Error: "` followed by the read failure's
diagnostic, and the backend is never consulted: the result is the same for
every chat-completion function. -/
theorem c8_vision_unreadable_no_backend_call
    (cc : ChatRequest → Except String String)
    (fsys : String → Except String (List Nat))
    (args : List (String × Value)) (q : Value) (p d : String)
    (hq : lookupArg args "query" = some q)
    (hp : lookupArg args "image_path" = some (.str p))
    (hf : fsys p = .error d) :
    handle_tool_call ⟨cc, fsys⟩ "ask-openai-vision" (some args) =
      [⟨"text", "Error: " ++ d⟩] ∧
    (∀ cc₂, handle_tool_call ⟨cc₂, fsys⟩ "ask-openai-vision" (some args) =
      [⟨"text", "Error: " ++ d⟩]) := by
  have key : ∀ cc₂, handle_tool_call ⟨cc₂, fsys⟩ "ask-openai-vision" (some args) =
      [⟨"text", "Error: " ++ d⟩] := by
    intro cc₂
    refine handle_err ?_
    have hname : ¬ ("ask-openai-vision" = "ask-openai") := by decide
    simp only [dispatchBody, ne_nil_of_lookup hq, Bool.false_eq_true, if_false,
      if_neg hname, if_pos rfl, if_true, hq, hp, ask_openai_vision, openFileRead, hf]
  exact ⟨key cc, key⟩

/-- C8 witness: the spec scenario — the vision tool on `"/missing.jpg"`
against a filesystem raising file-not-found. -/
theorem c8_vision_unreadable_no_backend_call_witness :
    stubEnv.fs "/missing.jpg" =
      .error ("[Errno 2] No such file or directory: " ++ sq ++ "/missing.jpg" ++ sq) ∧
    handle_tool_call ⟨stubEnv.chatComplete, stubEnv.fs⟩ "ask-openai-vision"
        (some [("query", Value.str "what is this?"),
               ("image_path", Value.str "/missing.jpg")]) =
      [⟨"text", "Error: " ++
         ("[Errno 2] No such file or directory: " ++ sq ++ "/missing.jpg" ++ sq)⟩] :=
  ⟨rfl,
   (c8_vision_unreadable_no_backend_call stubEnv.chatComplete stubEnv.fs
      [("query", Value.str "what is this?"),
       ("image_path", Value.str "/missing.jpg")]
      (Value.str "what is this?") "/missing.jpg"
      ("[Errno 2] No such file or directory: " ++ sq ++ "/missing.jpg" ++ sq)
      rfl rfl rfl).1⟩

/-- C10: argument keys not declared in the tool schemas do not influence
the result — two non-empty mappings that agree on the declared keys
(`query`, `image_path`, `model`, `temperature`, `max_tokens`) produce
identical responses for the same tool name and environment. -/
theorem c10_undeclared_keys_no_influence (env : Env) (name : String)
    (a₁ a₂ : List (String × Value)) (h₁ : a₁ ≠ []) (h₂ : a₂ ≠ [])
    (hq : lookupArg a₁ "query" = lookupArg a₂ "query")
    (hp : lookupArg a₁ "image_path" = lookupArg a₂ "image_path")
    (hm : lookupArg a₁ "model" = lookupArg a₂ "model")
    (ht : lookupArg a₁ "temperature" = lookupArg a₂ "temperature")
    (hk : lookupArg a₁ "max_tokens" = lookupArg a₂ "max_tokens") :
    handle_tool_call env name (some a₁) = handle_tool_call env name (some a₂) := by
  have body : dispatchBody env name (some a₁) = dispatchBody env name (some a₂) := by
    simp only [dispatchBody, getArg, isEmpty_false_of_ne_nil h₁,
      isEmpty_false_of_ne_nil h₂, hq, hp, hm, ht, hk]
  simp [handle_tool_call, body]

/-- C10 witness: `{"query": "q", "extra": 1}` and
`{"query": "q", "other": true, "more": null}` produce the same response. -/
theorem c10_undeclared_keys_no_influence_witness :
    handle_tool_call stubEnv "ask-openai"
        (some [("query", Value.str "q"), ("extra", Value.int 1)]) =
      handle_tool_call stubEnv "ask-openai"
        (some [("query", Value.str "q"), ("other", Value.bool true),
               ("more", Value.null)]) :=
  c10_undeclared_keys_no_influence stubEnv "ask-openai"
    [("query", Value.str "q"), ("extra", Value.int 1)]
    [("query", Value.str "q"), ("other", Value.bool true), ("more", Value.null)]
    (by decide) (by decide) (by decide) (by decide) (by decide) (by decide)
    (by decide)

end McpServerOpenai
